import Mathlib

/-
Verification of the nilai-backend journaling service.

The development shallowly embeds the request handlers and service functions of
the repository (src/controllers/insights.js, src/controllers/journals.js,
src/utils/services/insights.js, src/utils/services/emotion.js) as pure Lean
functions over an explicit database state.  Time is measured in whole hours
since an epoch; a calendar date is the floor of the hour count divided by 24,
matching the server-side CURRENT_DATE / toISOString date truncation.  The
external NLP and emotion-classification services are parameters: a call that
the JavaScript code awaits is modelled as applying the parameter, with Option
or Except tracking the null / thrown outcomes the code distinguishes.
-/

namespace Nilai

/-- Calendar date of an instant: CURRENT_DATE / DATE_TRUNC to days /
toISOString().split('T')[0], as a day index (floor of hours / 24). -/
def dateOf (t : Int) : Int := Int.fdiv t 24

/-- One element of a journal entry's emotions JSONB array. -/
structure EmotionPair where
  emotion : String
  confidence : Int
deriving DecidableEq, Repr

/-- A row of journal_entries. -/
structure Entry where
  journal_id : Int
  user_id : Int
  title : String
  content : String
  emotions : Option (List EmotionPair)
  created_at : Int
  favourite : Bool
deriving DecidableEq, Repr

/-- A row of daily_quotes. -/
structure QuoteRow where
  user_id : Int
  title : String
  quote : String
  author : String
  citation : String
  explanation : String
  quote_date : Int
deriving DecidableEq, Repr

/-- A row of daily_summaries.  key_themes and emotional_trends are stored as
the JSON strings the code produces with JSON.stringify. -/
structure SummaryRow where
  user_id : Int
  summary : String
  key_themes : String
  emotional_trends : String
  entry_count : Nat
  analysis_period_start : Int
  analysis_period_end : Int
  summary_date : Int
deriving DecidableEq, Repr

/-- The database: users (firebase_uid, user_id), journal_entries,
daily_quotes and daily_summaries. -/
structure DB where
  users : List (String × Int)
  journal_entries : List Entry
  daily_quotes : List QuoteRow
  daily_summaries : List SummaryRow
deriving DecidableEq, Repr

/-- An HTTP response: a status code with a JSON payload rendered as an
ordered list of (key, rendered value) fields, or an error status with an
error message. -/
inductive Resp (α : Type) where
  | ok (status : Nat) (payload : α)
  | err (status : Nat) (msg : String)
deriving DecidableEq, Repr

/-- Payload of the quote / summary / journal endpoints: a JSON object as an
ordered field list. -/
abbrev Payload := List (String × String)

/-- response.data of the NLP quote service (POST /insights/quote on the NLP
side).  Absent JSON fields are modelled as the empty string, which is what
the code's falsiness checks distinguish. -/
structure NlpQuote where
  title : String
  quote : String
  author : String
  citation : String
  explanation : String
deriving DecidableEq, Repr

/-- response.data of the NLP summarizer (POST /insights/daily-summary).
key_themes and emotional_trends are handed to JSON.stringify unexamined, so
they are kept as their serialized strings. -/
structure NlpSummary where
  summary : String
  key_themes : String
  emotional_trends : String
deriving DecidableEq, Repr

/-- The external emotion-classification service: given the posted text, it
either throws (network / service failure, Except.error) or yields
response.data, which is null (none) or a JSON array of emotion pairs. -/
abbrev Classifier := String → Except Unit (Option (List EmotionPair))

instance {ε α : Type} [DecidableEq ε] [DecidableEq α] :
    DecidableEq (Except ε α) := fun a b =>
  match a, b with
  | .error e, .error f =>
      if h : e = f then .isTrue (h ▸ rfl)
      else .isFalse (fun hh => h (Except.error.inj hh))
  | .ok x, .ok y =>
      if h : x = y then .isTrue (h ▸ rfl)
      else .isFalse (fun hh => h (Except.ok.inj hh))
  | .error _, .ok _ => .isFalse Except.noConfusion
  | .ok _, .error _ => .isFalse Except.noConfusion

/-- SELECT user_id FROM users WHERE firebase_uid = $1, taking rows[0]. -/
def selectUser (db : DB) (uid : String) : Option Int :=
  (db.users.find? (fun p => p.1 == uid)).map (fun p => p.2)

/-- SELECT ... FROM daily_quotes WHERE user_id = $1 AND quote_date = $2. -/
def quotesFor (db : DB) (userId date : Int) : List QuoteRow :=
  db.daily_quotes.filter (fun r => r.user_id == userId && r.quote_date == date)

/-- SELECT ... FROM daily_summaries WHERE user_id = $1 AND summary_date = $2. -/
def summariesFor (db : DB) (userId date : Int) : List SummaryRow :=
  db.daily_summaries.filter (fun r => r.user_id == userId && r.summary_date == date)

/-- SELECT ... FROM journal_entries WHERE user_id = $1 AND created_at >= $2
(the ORDER BY created_at DESC of the source orders rows the NLP service
receives; no claim depends on that order, so storage order is kept). -/
def entriesSince (db : DB) (userId : Int) (cutoff : Int) : List Entry :=
  db.journal_entries.filter (fun e => e.user_id == userId && cutoff ≤ e.created_at)

/-- SELECT ... WHERE user_id = $1 AND created_at >= $2 AND created_at < $3. -/
def entriesWindow (db : DB) (userId : Int) (lo hi : Int) : List Entry :=
  db.journal_entries.filter
    (fun e => e.user_id == userId && lo ≤ e.created_at && e.created_at < hi)

/-- Modelled from the spec: the database schema (DDL) is not under src/.  The
spec requires "at most one quote row per (owner, quote_date)" enforced by the
store as a unique constraint, with a duplicate INSERT failing as a
unique-violation.  INSERT INTO daily_quotes: error on a (user_id, quote_date)
duplicate, otherwise append the row. -/
def insertQuote (db : DB) (row : QuoteRow) : Except Unit DB :=
  if db.daily_quotes.any
      (fun r => r.user_id == row.user_id && r.quote_date == row.quote_date) then
    .error ()
  else
    .ok { db with daily_quotes := db.daily_quotes ++ [row] }

/-- Modelled from the spec: the database schema (DDL) is not under src/.  The
spec requires "at most one summary row per (owner, summary_date)" enforced by
the store as a unique constraint.  INSERT INTO daily_summaries: error on a
(user_id, summary_date) duplicate, otherwise append the row. -/
def insertSummary (db : DB) (row : SummaryRow) : Except Unit DB :=
  if db.daily_summaries.any
      (fun r => r.user_id == row.user_id && r.summary_date == row.summary_date) then
    .error ()
  else
    .ok { db with daily_summaries := db.daily_summaries ++ [row] }

/-- The text getEmotion posts to the emotions service
(src/utils/services/emotion.js): the function takes no parameter, so the
content the callers pass is dropped and a fixed string is sent. -/
def getEmotionRequestText (_content : String) : String := "I am happy today!"

/-- getEmotion (src/utils/services/emotion.js): posts the fixed text to the
classifier and returns response.data; a failed request throws (no catch
inside getEmotion). -/
def getEmotion (cls : Classifier) (content : String) :
    Except Unit (Option (List EmotionPair)) :=
  cls (getEmotionRequestText content)

/-- generateDailyQuote (src/utils/services/insights.js): reads the user's
entries from the last 7 days; with zero entries it returns null, otherwise it
posts them to the NLP quote service.  Both an axios failure (caught inside
the function) and the empty window yield null, so the result is an Option. -/
def generateDailyQuote (nlp : List Entry → Option NlpQuote) (db : DB)
    (userId : Int) (now : Int) : Option NlpQuote :=
  let entries := entriesSince db userId (now - 7 * 24)
  if entries.isEmpty then none else nlp entries

/-- generateDailySummaryForUser (src/utils/services/insights.js): no-op if a
summary row for (userId, summaryDate) exists or the 7-day window is empty;
otherwise calls the NLP summarizer and inserts the row, with the whole
generate-and-insert wrapped in a try/catch that swallows failures (nlp
failure and insert failure both leave the database unchanged). -/
def generateDailySummaryForUser (nlp : List Entry → Option NlpSummary)
    (db : DB) (userId summaryDate : Int) (now : Int) : DB :=
  if db.daily_summaries.any
      (fun r => r.user_id == userId && r.summary_date == summaryDate) then
    db
  else
    let entries := entriesWindow db userId (now - 7 * 24) now
    if entries.isEmpty then
      db
    else
      match nlp entries with
      | none => db
      | some s =>
          match insertSummary db
              { user_id := userId, summary := s.summary,
                key_themes := s.key_themes,
                emotional_trends := s.emotional_trends,
                entry_count := entries.length,
                analysis_period_start := dateOf (now - 7 * 24),
                analysis_period_end := dateOf (now - 24),
                summary_date := summaryDate } with
          | .ok db2 => db2
          | .error _ => db

/-- generateDailySummaryForUser whose uniqueness pre-check ran against a
stale snapshot dbold (the check happened before a concurrent request's
insert), while the window read and the insert run against db.  This models
the interleaving of two same-day requests racing on daily_summaries. -/
def generateDailySummaryStaleCheck (nlp : List Entry → Option NlpSummary)
    (dbold db : DB) (userId summaryDate : Int) (now : Int) : DB :=
  if dbold.daily_summaries.any
      (fun r => r.user_id == userId && r.summary_date == summaryDate) then
    db
  else
    let entries := entriesWindow db userId (now - 7 * 24) now
    if entries.isEmpty then
      db
    else
      match nlp entries with
      | none => db
      | some s =>
          match insertSummary db
              { user_id := userId, summary := s.summary,
                key_themes := s.key_themes,
                emotional_trends := s.emotional_trends,
                entry_count := entries.length,
                analysis_period_start := dateOf (now - 7 * 24),
                analysis_period_end := dateOf (now - 24),
                summary_date := summaryDate } with
          | .ok db2 => db2
          | .error _ => db

/-- The five quote columns the cache-hit SELECT of GET /insights/quote
returns, rendered as the JSON payload. -/
def quoteRowPayload5 (r : QuoteRow) : Payload :=
  [("title", r.title), ("quote", r.quote), ("author", r.author),
   ("citation", r.citation), ("explanation", r.explanation)]

/-- The six columns the post-insert re-read SELECT of GET /insights/quote
returns (the same five plus quote_date), rendered as the JSON payload. -/
def quoteRowPayload6 (r : QuoteRow) : Payload :=
  quoteRowPayload5 r ++ [("quote_date", toString r.quote_date)]

/-- The sentinel body of GET /insights/quote when no quote was generated. -/
def quoteSentinel : Payload :=
  [("message", "Start journaling to receive personalized daily quotes!")]

/-- Outcome of one GET /insights/quote request: the response, the database
after the request, and how many calls reached the external NLP quote
service. -/
structure QuoteOutcome where
  resp : Resp Payload
  db : DB
  nlpCalls : Nat
deriving DecidableEq, Repr

/-- The part of GET /insights/quote (src/controllers/insights.js) that runs
after the cache lookup missed: generate, sentinel on an unusable quote,
otherwise insert and re-read.  An insert failure reaches the handler's
catch-all, which answers 500. -/
def quoteMissPath (nlp : List Entry → Option NlpQuote) (db : DB)
    (userId : Int) (now : Int) : QuoteOutcome :=
  let today := dateOf now
  let calls :=
    if (entriesSince db userId (now - 7 * 24)).isEmpty then 0 else 1
  match generateDailyQuote nlp db userId now with
  | none => ⟨.ok 200 quoteSentinel, db, calls⟩
  | some q =>
      if q.quote == "" then
        ⟨.ok 200 quoteSentinel, db, calls⟩
      else
        match insertQuote db
            { user_id := userId, title := q.title, quote := q.quote,
              author := q.author, citation := q.citation,
              explanation := q.explanation, quote_date := today } with
        | .error _ => ⟨.err 500 "Failed to fetch daily quote", db, calls⟩
        | .ok db2 =>
            match quotesFor db2 userId today with
            | r :: _ => ⟨.ok 200 (quoteRowPayload6 r), db2, calls⟩
            | [] => ⟨.ok 200 [], db2, calls⟩

/-- GET /insights/quote (src/controllers/insights.js): resolve the user,
return the cached row's five columns on a (user, CURRENT_DATE) hit, else run
the generation path. -/
def getQuote (nlp : List Entry → Option NlpQuote) (db : DB) (uid : String)
    (now : Int) : QuoteOutcome :=
  match selectUser db uid with
  | none => ⟨.err 404 "User not found", db, 0⟩
  | some userId =>
      match quotesFor db userId (dateOf now) with
      | r :: _ => ⟨.ok 200 (quoteRowPayload5 r), db, 0⟩
      | [] => quoteMissPath nlp db userId now

/-- Two same-day GET /insights/quote requests for one user racing: both cache
lookups read the same database (both miss), request A completes first, and
request B's generation and insert then run against A's database. -/
def quoteRace (nlp : List Entry → Option NlpQuote) (db : DB) (userId : Int)
    (now : Int) : QuoteOutcome × QuoteOutcome :=
  let a := quoteMissPath nlp db userId now
  (a, quoteMissPath nlp a.db userId now)

/-- The JSON body GET /insights/summary builds from a summary row. -/
def summaryPayload (s : SummaryRow) : Payload :=
  [("summary", s.summary), ("key_themes", s.key_themes),
   ("emotional_trends", s.emotional_trends),
   ("entry_count", toString s.entry_count),
   ("analysis_period.start", toString s.analysis_period_start),
   ("analysis_period.end", toString s.analysis_period_end),
   ("generated_date", toString s.summary_date)]

/-- The sentinel body of GET /insights/summary for a user with no summaries
and no recent entries. -/
def summarySentinel : Payload :=
  [("message", "No summaries available yet. Keep journaling and check back tomorrow!")]

/-- SELECT ... FROM daily_summaries WHERE user_id = $1 ORDER BY summary_date
DESC LIMIT 1: a row of maximal summary_date (the first such row in storage
order, which is the unique one under the (owner, date) uniqueness). -/
def mostRecentSummary (db : DB) (userId : Int) : Option SummaryRow :=
  (db.daily_summaries.filter (fun r => r.user_id == userId)).foldl
    (fun acc r =>
      match acc with
      | none => some r
      | some b => if b.summary_date < r.summary_date then some r else some b)
    none

/-- GET /insights/summary (src/controllers/insights.js).  With no summary at
all: sentinel on an empty 7-day window, else generate for today and return
the generated row; if that row cannot be fetched the code falls through to
reading a field of undefined, and the thrown TypeError reaches the catch-all
(500).  With a most recent summary from a prior date: regenerate when the
window is non-empty and return the new row if found; in every other case
fall back to the stale most recent summary. -/
def getSummary (nlp : List Entry → Option NlpSummary) (db : DB) (uid : String)
    (now : Int) : Resp Payload × DB :=
  match selectUser db uid with
  | none => (.err 404 "User not found", db)
  | some userId =>
      let today := dateOf now
      match mostRecentSummary db userId with
      | none =>
          if (entriesSince db userId (now - 7 * 24)).isEmpty then
            (.ok 200 summarySentinel, db)
          else
            let db2 := generateDailySummaryForUser nlp db userId today now
            match summariesFor db2 userId today with
            | s :: _ => (.ok 200 (summaryPayload s), db2)
            | [] => (.err 500 "Failed to fetch daily summary", db2)
      | some recent =>
          if recent.summary_date == today then
            (.ok 200 (summaryPayload recent), db)
          else
            if (entriesSince db userId (now - 7 * 24)).isEmpty then
              (.ok 200 (summaryPayload recent), db)
            else
              let db2 := generateDailySummaryForUser nlp db userId today now
              match summariesFor db2 userId today with
              | s :: _ => (.ok 200 (summaryPayload s), db2)
              | [] => (.ok 200 (summaryPayload recent), db2)

/-- Emotion occurrences of a user's entries from the trailing 30 days
(created_at >= CURRENT_DATE - 30 days), each paired with its entry's
creation time: the unnested_emotions CTE shared by the topEmotions and
emotionTrends queries.  A NULL emotions column yields no rows
(jsonb_array_elements is strict), matching Option.getD []. -/
def unnestedEmotions (db : DB) (userId cd : Int) : List (Int × String) :=
  (db.journal_entries.filter
      (fun e => e.user_id == userId && (cd - 30) * 24 ≤ e.created_at)).flatMap
    (fun e => (e.emotions.getD []).map (fun p => (e.created_at, p.emotion)))

/-- Non-increasing count order used to model ORDER BY count DESC. -/
def countGE (p q : String × Nat) : Prop := q.2 ≤ p.2

instance : DecidableRel countGE := fun p q => inferInstanceAs (Decidable (q.2 ≤ p.2))

instance : IsTotal (String × Nat) countGE :=
  ⟨fun p q => Nat.le_total q.2 p.2⟩

instance : IsTrans (String × Nat) countGE :=
  ⟨fun _ _ _ h h2 => Nat.le_trans h2 h⟩

/-- GROUP BY emotion / COUNT(*) over the unnested emotions: one (label,
occurrence count) pair per distinct label. -/
def groupedCounts (labels : List String) : List (String × Nat) :=
  labels.dedup.map (fun e => (e, labels.count e))

/-- Response of GET /insights/topEmotions. -/
inductive TopEmotionsResp where
  | message (m : String)
  | top (rows : List (String × Nat))
  | userNotFound
deriving DecidableEq, Repr

/-- GET /insights/topEmotions (src/controllers/insights.js): count each
(entry, emotion) occurrence of the trailing 30 days by label, ORDER BY count
DESC (ties in an unspecified order, realized here by a stable insertion
sort), LIMIT 5; with zero grouped rows answer the sentinel message. -/
def getTopEmotions (db : DB) (uid : String) (cd : Int) : TopEmotionsResp :=
  match selectUser db uid with
  | none => .userNotFound
  | some userId =>
      let labels := (unnestedEmotions db userId cd).map (fun p => p.2)
      let rows := (List.insertionSort countGE (groupedCounts labels)).take 5
      if rows.isEmpty then
        .message "No journal entries found in the last 30 days"
      else
        .top rows

/-- What GET /insights/topEmotions promises: a sentinel message on an empty
window, otherwise the emotion labels of the trailing 30 days grouped with
their occurrence counts, ordered by non-increasing count, truncated to at
most 5 without padding (one row per distinct label, every omitted label
counting no more than every kept row). -/
def TopEmotionsOk (db : DB) (uid : String) (userId cd : Int) : Prop :=
  let labels := (unnestedEmotions db userId cd).map (fun p => p.2)
  (labels = [] →
    getTopEmotions db uid cd =
      .message "No journal entries found in the last 30 days") ∧
  (labels ≠ [] → ∃ rows,
    getTopEmotions db uid cd = .top rows ∧
    rows.length = min 5 labels.dedup.length ∧
    (∀ p ∈ rows, p.1 ∈ labels.dedup ∧ p.2 = labels.count p.1) ∧
    rows.Pairwise countGE ∧
    (rows.map Prod.fst).Nodup ∧
    (∀ e ∈ labels.dedup,
      (e, labels.count e) ∈ rows ∨ ∀ p ∈ rows, labels.count e ≤ p.2))

/-- The static positive-emotion list of the emotionTrends query. -/
def positiveEmotions : List String :=
  ["gratitude", "joy", "love", "admiration", "approval", "caring",
   "excitement", "amusement", "pride", "desire", "optimism", "relief"]

/-- The static negative-emotion list of the emotionTrends query. -/
def negativeEmotions : List String :=
  ["anger", "sadness", "fear", "disgust", "disappointment", "annoyance",
   "grief", "remorse", "disapproval", "embarrassment", "nervousness"]

/-- The CASE expression of categorized_emotions. -/
def categoryOf (e : String) : String :=
  if positiveEmotions.contains e then "positive"
  else if negativeEmotions.contains e then "negative"
  else "ambiguous"

/-- The seven bucket offsets of the emotionTrends query. -/
def bucketOffsets : List Nat := [1, 5, 10, 15, 20, 25, 30]

/-- The LEFT JOIN condition of the emotionTrends query, for current date cd
(so CURRENT_DATE as an instant is cd * 24) and an emotion's entry creation
time t: bucket 1 requires DATE_TRUNC('day', t) = CURRENT_DATE; bucket k of
{5, 10, 15, 20, 25, 30} requires
CURRENT_DATE - k days < t AND t <= CURRENT_DATE - (k - 5) days written with
the literal day counts of the SQL CASE arms. -/
def inBucket (cd : Int) (k : Nat) (t : Int) : Bool :=
  if k == 1 then dateOf t == cd
  else if k == 5 then (cd - 5) * 24 < t && t ≤ (cd - 1) * 24
  else if k == 10 then (cd - 10) * 24 < t && t ≤ (cd - 5) * 24
  else if k == 15 then (cd - 15) * 24 < t && t ≤ (cd - 10) * 24
  else if k == 20 then (cd - 20) * 24 < t && t ≤ (cd - 15) * 24
  else if k == 25 then (cd - 25) * 24 < t && t ≤ (cd - 20) * 24
  else if k == 30 then (cd - 30) * 24 < t && t ≤ (cd - 25) * 24
  else false

/-- One output row of GET /insights/emotionTrends. -/
structure TrendRow where
  day : String
  positive : Nat
  negative : Nat
  ambiguous : Nat
deriving DecidableEq, Repr

/-- The grouped counts of one bucket: among the 30-day emotion occurrences
joined into bucket k, how many are positive / negative / ambiguous (COALESCE
makes an unmatched bucket report zeros). -/
def trendRowFor (emos : List (Int × String)) (cd : Int) (k : Nat) : TrendRow :=
  let inB := emos.filter (fun p => inBucket cd k p.1)
  { day := toString k,
    positive := (inB.filter (fun p => categoryOf p.2 == "positive")).length,
    negative := (inB.filter (fun p => categoryOf p.2 == "negative")).length,
    ambiguous := (inB.filter (fun p => categoryOf p.2 == "ambiguous")).length }

/-- GET /insights/emotionTrends (src/controllers/insights.js): one row per
bucket offset in ascending offset order, each counting the user's 30-day
emotion occurrences that the join condition places in that bucket. -/
def getEmotionTrends (db : DB) (uid : String) (cd : Int) :
    Resp (List TrendRow) :=
  match selectUser db uid with
  | none => .err 404 "User not found"
  | some userId =>
      .ok 200 (bucketOffsets.map (trendRowFor (unnestedEmotions db userId cd) cd))

/-- The columns POST /journals returns from its INSERT ... RETURNING,
rendered as the JSON payload (a NULL emotions column renders as null). -/
def entryPayloadPost (e : Entry) : Payload :=
  [("journal_id", toString e.journal_id), ("title", e.title),
   ("content", e.content),
   ("emotions", match e.emotions with
                | none => "null"
                | some l => toString (repr l))]

/-- POST /journals (src/controllers/journals.js): validate title and content,
resolve the user, call getEmotion with the content (whose thrown failure
reaches the catch-all and answers 500 with nothing inserted), then insert
the entry with the classifier result (null when response.data was null) and
answer 201 with the returned row. -/
def postJournal (cls : Classifier) (db : DB) (uid : String)
    (title content : String) (nextId : Int) (now : Int) :
    Resp Payload × DB :=
  if title == "" || content == "" then
    (.err 400 "Missing required fields: title, content", db)
  else
    match selectUser db uid with
    | none => (.err 404 "User not found", db)
    | some userId =>
        match getEmotion cls content with
        | .error _ => (.err 500 "Failed to create journal entry", db)
        | .ok data =>
            let e : Entry :=
              { journal_id := nextId, user_id := userId, title := title,
                content := content, emotions := data, created_at := now,
                favourite := false }
            (.ok 201 (entryPayloadPost e),
             { db with journal_entries := db.journal_entries ++ [e] })

/-- UPDATE journal_entries SET title, content, emotions, updated_at WHERE
journal_id = $1 AND user_id = $2: the updated table and the RETURNING rows. -/
def updateEntryRows (db : DB) (jid userId : Int) (f : Entry → Entry) :
    DB × List Entry :=
  let rows := db.journal_entries.map
    (fun e => if e.journal_id == jid && e.user_id == userId then f e else e)
  ({ db with journal_entries := rows },
   rows.filter (fun e => e.journal_id == jid && e.user_id == userId))

/-- PUT /journals/:id (src/controllers/journals.js): validate, resolve the
user, 404 unless a row with this journal_id belongs to the user, recompute
emotions via getEmotion (a thrown failure answers 500, nothing updated),
then update the row and answer with it. -/
def putJournal (cls : Classifier) (db : DB) (uid : String) (jid : Int)
    (title content : String) (_now : Int) : Resp Payload × DB :=
  if title == "" || content == "" then
    (.err 400 "Missing required fields: title, content", db)
  else
    match selectUser db uid with
    | none => (.err 404 "User not found", db)
    | some userId =>
        if (db.journal_entries.filter
            (fun e => e.journal_id == jid && e.user_id == userId)).isEmpty then
          (.err 404 "Journal entry not found or access denied", db)
        else
          match getEmotion cls content with
          | .error _ => (.err 500 "Failed to update journal entry", db)
          | .ok data =>
              let upd := updateEntryRows db jid userId
                (fun e =>
                  { e with
                    title := title
                    content := content
                    emotions := data })
              match upd.2 with
              | e :: _ =>
                  (.ok 200 [("journal_id", toString e.journal_id),
                            ("title", e.title), ("content", e.content)],
                   upd.1)
              | [] => (.ok 200 [], upd.1)

/-- PATCH /journals/:id/favourite (src/controllers/journals.js): resolve the
user, update the favourite flag of the row matching (journal_id, user_id),
404 when the update returned no row. -/
def patchFavourite (db : DB) (uid : String) (jid : Int) (fav : Bool) :
    Resp Payload × DB :=
  match selectUser db uid with
  | none => (.err 404 "User not found", db)
  | some userId =>
      let upd := updateEntryRows db jid userId (fun e => { e with favourite := fav })
      match upd.2 with
      | e :: _ =>
          (.ok 200 [("journal_id", toString e.journal_id),
                    ("favourite", toString e.favourite)], upd.1)
      | [] => (.err 404 "Journal entry not found or access denied", db)

/-- DELETE /journals/:id (src/controllers/journals.js): resolve the user,
DELETE ... WHERE journal_id = $1 AND user_id = $2 RETURNING journal_id, 404
when nothing was deleted. -/
def deleteJournal (db : DB) (uid : String) (jid : Int) : Resp Payload × DB :=
  match selectUser db uid with
  | none => (.err 404 "User not found", db)
  | some userId =>
      let deleted := db.journal_entries.filter
        (fun e => e.journal_id == jid && e.user_id == userId)
      let keep := db.journal_entries.filter
        (fun e => !(e.journal_id == jid && e.user_id == userId))
      let db2 := { db with journal_entries := keep }
      match deleted with
      | e :: _ =>
          (.ok 200 [("message", "Journal entry deleted successfully"),
                    ("journal_id", toString e.journal_id)], db2)
      | [] => (.err 404 "Journal entry not found or access denied", db)

/-- The loser's view of two same-day GET /insights/summary requests racing:
request A's generation (check, window read, NLP call, insert) completes
first; request B's generation ran its uniqueness check against the original
database but inserts against A's database (the unique-violation is swallowed
by the generation routine's catch); B's handler then fetches today's row and
returns it. -/
def summaryRaceLoser (nlp : List Entry → Option NlpSummary) (db : DB)
    (userId : Int) (now : Int) : Resp Payload × DB :=
  let today := dateOf now
  let dbA := generateDailySummaryForUser nlp db userId today now
  let dbB := generateDailySummaryStaleCheck nlp db dbA userId today now
  match summariesFor dbB userId today with
  | s :: _ => (.ok 200 (summaryPayload s), dbB)
  | [] => (.ok 200 [], dbB)

/-
Concrete inputs used by counterexamples and witnesses.  The clock is set to
hour 2410 = day 100, 10:00.
-/

/-- An NLP quote service that always produces a usable quote. -/
def exNlpQ : List Entry → Option NlpQuote :=
  fun _ => some { title := "T", quote := "Q", author := "A", citation := "C",
                  explanation := "E" }

/-- An NLP summarizer that always produces a summary. -/
def exNlpS : List Entry → Option NlpSummary :=
  fun _ => some { summary := "S", key_themes := "[\"calm\"]",
                  emotional_trends := "\x7b\x7d" }

/-- A classifier whose request always fails (axios throws). -/
def exClsErr : Classifier := fun _ => .error ()

/-- A classifier that answers null (empty response body). -/
def exClsNull : Classifier := fun _ => .ok none

/-- A classifier that labels the fixed getEmotion text joy and any other
text sadness, distinguishing which text it was sent. -/
def exClsDistinguish : Classifier :=
  fun t => .ok (some [{ emotion := if t == "I am happy today!" then "joy" else "sadness",
                        confidence := 1 }])

/-- A journal entry of user 1 written at day 100, 08:00. -/
def exEntry1 : Entry :=
  { journal_id := 1, user_id := 1, title := "t1", content := "c1",
    emotions := some [{ emotion := "joy", confidence := 9 }],
    created_at := 100 * 24 + 8, favourite := false }

/-- User 1 with one fresh entry and empty caches. -/
def exDb1 : DB :=
  { users := [("u1", 1)], journal_entries := [exEntry1], daily_quotes := [],
    daily_summaries := [] }

/-- The request instant: day 100, 10:00. -/
def exNow : Int := 100 * 24 + 10

/-- User 1 whose only entry is far outside every window (day 50). -/
def exDbNoEntries : DB :=
  { users := [("u1", 1)],
    journal_entries :=
      [{ journal_id := 7, user_id := 1, title := "old", content := "old",
         emotions := none, created_at := 50 * 24, favourite := false }],
    daily_quotes := [], daily_summaries := [] }

/-- A summary of user 1 dated day 99 (yesterday relative to exNow). -/
def exSummary99 : SummaryRow :=
  { user_id := 1, summary := "old summary", key_themes := "[\"rest\"]",
    emotional_trends := "\x7b\x7d", entry_count := 2,
    analysis_period_start := 92, analysis_period_end := 98,
    summary_date := 99 }

/-- User 1 with yesterday's summary and no recent entries. -/
def exDbStale : DB :=
  { users := [("u1", 1)], journal_entries := [], daily_quotes := [],
    daily_summaries := [exSummary99] }

/-- An entry of user 1 created yesterday at noon (day 99, 12:00): inside the
30-day retrieval window but in no emotionTrends bucket. -/
def exEntryYesterdayNoon : Entry :=
  { journal_id := 2, user_id := 1, title := "t2", content := "c2",
    emotions := some [{ emotion := "joy", confidence := 9 }],
    created_at := 99 * 24 + 12, favourite := false }

/-- User 1 with only the yesterday-noon entry. -/
def exDbGap : DB :=
  { users := [("u1", 1)], journal_entries := [exEntryYesterdayNoon],
    daily_quotes := [], daily_summaries := [] }

/-- Builds an entry of user 1 at day 95 with the given label multiset. -/
def exEntryWith (jid : Int) (labels : List String) : Entry :=
  { journal_id := jid, user_id := 1, title := "t", content := "c",
    emotions := some (labels.map (fun l => { emotion := l, confidence := 5 })),
    created_at := 95 * 24, favourite := false }

/-- User 1 with 30-day emotion occurrence counts
joy: 5, fear: 3, calm: 3, pride: 1 (the spec's top-emotions test vector). -/
def exDb9 : DB :=
  { users := [("u1", 1)],
    journal_entries :=
      [exEntryWith 1 ["joy", "joy", "joy"],
       exEntryWith 2 ["joy", "joy", "fear"],
       exEntryWith 3 ["fear", "fear", "calm"],
       exEntryWith 4 ["calm", "calm", "pride"]],
    daily_quotes := [], daily_summaries := [] }

/-- User 1 already holding a summary row dated day 100. -/
def exDbSum100 : DB :=
  { users := [("u1", 1)], journal_entries := [exEntry1], daily_quotes := [],
    daily_summaries :=
      [{ user_id := 1, summary := "done", key_themes := "[]",
         emotional_trends := "\x7b\x7d", entry_count := 1,
         analysis_period_start := 93, analysis_period_end := 99,
         summary_date := 100 }] }

/-- Two users, one entry each: journal 1 belongs to user 1, journal 2 to
user 2. -/
def exDb10 : DB :=
  { users := [("u1", 1), ("u2", 2)],
    journal_entries :=
      [{ journal_id := 1, user_id := 1, title := "mine", content := "m",
         emotions := none, created_at := 100 * 24, favourite := false },
       { journal_id := 2, user_id := 2, title := "theirs", content := "th",
         emotions := none, created_at := 100 * 24, favourite := false }],
    daily_quotes := [], daily_summaries := [] }

/-
General lemmas about the embedding.
-/

theorem dateOf_eq_div (t : Int) : dateOf t = t / 24 :=
  Int.fdiv_eq_ediv _ (by norm_num)

theorem dateOf_eq_iff (t : Int) (cd : Int) :
    dateOf t = cd ↔ cd * 24 ≤ t ∧ t < cd * 24 + 24 := by
  rw [dateOf_eq_div]
  omega

theorem any_eq_false_of_filter_eq_nil {α : Type} (p : α → Bool) (l : List α)
    (h : l.filter p = []) : l.any p = false := by
  rw [List.any_eq_false]
  intro a ha
  have h2 := List.filter_eq_nil_iff.mp h a ha
  simp at h2
  simp [h2]

theorem quoteMissPath_success (nlp : List Entry → Option NlpQuote) (db : DB)
    (userId now : Int) (q : NlpQuote)
    (hmiss : quotesFor db userId (dateOf now) = [])
    (hq : generateDailyQuote nlp db userId now = some q)
    (hqq : q.quote ≠ "") :
    quoteMissPath nlp db userId now =
      ⟨.ok 200 (quoteRowPayload6
          { user_id := userId, title := q.title, quote := q.quote,
            author := q.author, citation := q.citation,
            explanation := q.explanation, quote_date := dateOf now }),
       { db with daily_quotes := db.daily_quotes ++
          [{ user_id := userId, title := q.title, quote := q.quote,
             author := q.author, citation := q.citation,
             explanation := q.explanation, quote_date := dateOf now }] },
       1⟩ := by
  have hne : (entriesSince db userId (now - 7 * 24)).isEmpty = false := by
    by_contra h
    rw [Bool.not_eq_false] at h
    rw [generateDailyQuote] at hq
    simp only [h, if_true] at hq
    exact Option.noConfusion hq
  have hins : db.daily_quotes.any
      (fun r => r.user_id == userId && r.quote_date == dateOf now) = false :=
    any_eq_false_of_filter_eq_nil _ _ hmiss
  have hbeq : (q.quote == "") = false := by
    simpa using hqq
  simp only [quoteMissPath, hq, hne, hbeq, Bool.false_eq_true, if_false,
    insertQuote, hins, quotesFor, List.filter_append, hmiss]
  rw [show (quotesFor db userId (dateOf now) : List QuoteRow) =
    db.daily_quotes.filter
      (fun r => r.user_id == userId && r.quote_date == dateOf now) from rfl] at hmiss
  simp [hmiss]

theorem any_eq_true_of_filter_ne_nil {α : Type} (p : α → Bool) (l : List α)
    (h : l.filter p ≠ []) : l.any p = true := by
  rw [List.any_eq_true]
  rcases List.exists_mem_of_ne_nil _ h with ⟨a, ha⟩
  rw [List.mem_filter] at ha
  exact ⟨a, ha.1, ha.2⟩

theorem isEmpty_eq_false_of_ne_nil {α : Type} (l : List α) (h : l ≠ []) :
    l.isEmpty = false := by
  cases l with
  | nil => exact absurd rfl h
  | cons a l => rfl

theorem generateDailySummary_inserts (nlp : List Entry → Option NlpSummary)
    (db : DB) (userId date now : Int) (s : NlpSummary)
    (hnone : summariesFor db userId date = [])
    (hw : entriesWindow db userId (now - 7 * 24) now ≠ [])
    (hs : nlp (entriesWindow db userId (now - 7 * 24) now) = some s) :
    generateDailySummaryForUser nlp db userId date now =
      { db with daily_summaries := db.daily_summaries ++
        [{ user_id := userId, summary := s.summary, key_themes := s.key_themes,
           emotional_trends := s.emotional_trends,
           entry_count := (entriesWindow db userId (now - 7 * 24) now).length,
           analysis_period_start := dateOf (now - 7 * 24),
           analysis_period_end := dateOf (now - 24),
           summary_date := date }] } := by
  have hany : db.daily_summaries.any
      (fun r => r.user_id == userId && r.summary_date == date) = false :=
    any_eq_false_of_filter_eq_nil _ _ hnone
  have hne : (entriesWindow db userId (now - 7 * 24) now).isEmpty = false :=
    isEmpty_eq_false_of_ne_nil _ hw
  simp only [generateDailySummaryForUser, hany, Bool.false_eq_true, if_false,
    hne, hs, insertSummary]

/-
C1 — the daily-quote operation called twice on one date.
-/

/-- C1 counterexample: with user 1 holding one fresh entry and an NLP quote
available, the first GET /insights/quote of day 100 answers the freshly
stored row rendered with six fields (quote_date included) while the second
call answers the cached row rendered with five fields, so the two payloads
are not identical. -/
theorem quote_repeat_payload_counterexample :
    (getQuote exNlpQ (getQuote exNlpQ exDb1 "u1" exNow).db "u1" exNow).resp ≠
      (getQuote exNlpQ exDb1 "u1" exNow).resp := by
  decide

/-- C1 amended: on a cache miss that generates and stores a quote, the
second same-day call performs no NLP call and no insert, exactly one
daily_quotes row exists for the owner and date, and the second payload
consists of the first payload's five quote fields — but the first payload
additionally carries quote_date, so the two payloads are not identical. -/
theorem quote_repeat_amended (nlp : List Entry → Option NlpQuote) (db : DB)
    (uid : String) (userId now : Int) (q : NlpQuote)
    (hu : selectUser db uid = some userId)
    (hmiss : quotesFor db userId (dateOf now) = [])
    (hq : generateDailyQuote nlp db userId now = some q)
    (hqq : q.quote ≠ "") :
    (getQuote nlp (getQuote nlp db uid now).db uid now).nlpCalls = 0 ∧
    (getQuote nlp (getQuote nlp db uid now).db uid now).db =
      (getQuote nlp db uid now).db ∧
    (quotesFor (getQuote nlp db uid now).db userId (dateOf now)).length = 1 ∧
    ∃ r : QuoteRow,
      (getQuote nlp db uid now).resp = .ok 200 (quoteRowPayload6 r) ∧
      (getQuote nlp (getQuote nlp db uid now).db uid now).resp =
        .ok 200 (quoteRowPayload5 r) := by
  have h1 : getQuote nlp db uid now = quoteMissPath nlp db userId now := by
    simp only [getQuote, hu, hmiss]
  rw [h1, quoteMissPath_success nlp db userId now q hmiss hq hqq]
  have hrow : quotesFor
      { db with daily_quotes := db.daily_quotes ++
          [{ user_id := userId, title := q.title, quote := q.quote,
             author := q.author, citation := q.citation,
             explanation := q.explanation, quote_date := dateOf now }] }
      userId (dateOf now) =
      [{ user_id := userId, title := q.title, quote := q.quote,
         author := q.author, citation := q.citation,
         explanation := q.explanation, quote_date := dateOf now }] := by
    rw [show (quotesFor db userId (dateOf now) : List QuoteRow) =
      db.daily_quotes.filter
        (fun r => r.user_id == userId && r.quote_date == dateOf now) from rfl]
      at hmiss
    simp [quotesFor, List.filter_append, hmiss]
  have h2 : getQuote nlp
      { db with daily_quotes := db.daily_quotes ++
          [{ user_id := userId, title := q.title, quote := q.quote,
             author := q.author, citation := q.citation,
             explanation := q.explanation, quote_date := dateOf now }] }
      uid now =
      ⟨.ok 200 (quoteRowPayload5
          { user_id := userId, title := q.title, quote := q.quote,
            author := q.author, citation := q.citation,
            explanation := q.explanation, quote_date := dateOf now }),
       { db with daily_quotes := db.daily_quotes ++
          [{ user_id := userId, title := q.title, quote := q.quote,
             author := q.author, citation := q.citation,
             explanation := q.explanation, quote_date := dateOf now }] },
       0⟩ := by
    have hu2 : selectUser
        { db with daily_quotes := db.daily_quotes ++
            [{ user_id := userId, title := q.title, quote := q.quote,
               author := q.author, citation := q.citation,
               explanation := q.explanation, quote_date := dateOf now }] }
        uid = some userId := hu
    simp only [getQuote, hu2, hrow]
  rw [h2]
  refine ⟨rfl, rfl, ?_, ?_⟩
  · rw [hrow]
    rfl
  · exact ⟨_, rfl, rfl⟩

/-- C1 amended witness: user 1 on day 100 with one fresh entry, both calls
evaluated. -/
theorem quote_repeat_amended_witness :
    selectUser exDb1 "u1" = some 1 ∧
    quotesFor exDb1 1 (dateOf exNow) = [] ∧
    generateDailyQuote exNlpQ exDb1 1 exNow =
      some { title := "T", quote := "Q", author := "A", citation := "C",
             explanation := "E" } ∧
    ((getQuote exNlpQ (getQuote exNlpQ exDb1 "u1" exNow).db "u1" exNow).nlpCalls = 0 ∧
     (getQuote exNlpQ (getQuote exNlpQ exDb1 "u1" exNow).db "u1" exNow).db =
       (getQuote exNlpQ exDb1 "u1" exNow).db ∧
     (quotesFor (getQuote exNlpQ exDb1 "u1" exNow).db 1 (dateOf exNow)).length = 1 ∧
     ∃ r : QuoteRow,
       (getQuote exNlpQ exDb1 "u1" exNow).resp = .ok 200 (quoteRowPayload6 r) ∧
       (getQuote exNlpQ (getQuote exNlpQ exDb1 "u1" exNow).db "u1" exNow).resp =
         .ok 200 (quoteRowPayload5 r)) :=
  ⟨by decide, by decide, by decide,
   quote_repeat_amended exNlpQ exDb1 "u1" 1 exNow
     { title := "T", quote := "Q", author := "A", citation := "C",
       explanation := "E" }
     (by decide) (by decide) (by decide) (by decide)⟩

/-
C5 — quote cache miss with an empty 7-day window: sentinel, no NLP call,
no insert.
-/

/-- C5: on a quote-cache miss with zero entries in the trailing 7-day
window, GET /insights/quote answers the start-journaling sentinel with
success status, calls the NLP quote service zero times, and leaves the
database (in particular daily_quotes) unchanged. -/
theorem quote_emptyWindow_sentinel (nlp : List Entry → Option NlpQuote)
    (db : DB) (uid : String) (userId : Int) (now : Int)
    (hu : selectUser db uid = some userId)
    (hmiss : quotesFor db userId (dateOf now) = [])
    (hempty : entriesSince db userId (now - 7 * 24) = []) :
    getQuote nlp db uid now = ⟨.ok 200 quoteSentinel, db, 0⟩ := by
  simp only [getQuote, hu, hmiss, quoteMissPath, generateDailyQuote, hempty,
    List.isEmpty_nil, if_true]

/-- C5 witness: user 1 at day 100 has no cached quote and no entry in the
last 7 days, and the handler answers the sentinel without insert or NLP
call. -/
theorem quote_emptyWindow_sentinel_witness :
    selectUser exDbNoEntries "u1" = some 1 ∧
    quotesFor exDbNoEntries 1 (dateOf exNow) = [] ∧
    entriesSince exDbNoEntries 1 (exNow - 7 * 24) = [] ∧
    getQuote exNlpQ exDbNoEntries "u1" exNow =
      ⟨.ok 200 quoteSentinel, exDbNoEntries, 0⟩ :=
  ⟨by decide, by decide, by decide,
   quote_emptyWindow_sentinel exNlpQ exDbNoEntries "u1" 1 exNow
     (by decide) (by decide) (by decide)⟩

/-
C4 — unique-violation handling on the two cache tables.
-/

/-- C4 counterexample: in a same-day quote race (both requests miss the
cache, the loser inserts after the winner), the loser's unique-violation
reaches the handler's catch-all and is answered as a 500 error response —
it is propagated to the caller rather than resolved by a re-read. -/
theorem uniqueViolation_counterexample :
    (quoteRace exNlpQ exDb1 1 exNow).2.resp =
      .err 500 "Failed to fetch daily quote" := by
  decide

theorem filter_append_nil_singleton {α : Type} (p : α → Bool) (l : List α)
    (a : α) (h : l.filter p = []) (ha : p a = true) :
    (l ++ [a]).filter p = [a] := by
  simp [List.filter_append, h, ha]

theorem any_append_singleton {α : Type} (p : α → Bool) (l : List α) (a : α)
    (ha : p a = true) : (l ++ [a]).any p = true := by
  simp [ha]

theorem generateDailySummaryStaleCheck_conflict
    (nlp : List Entry → Option NlpSummary) (dbold db : DB)
    (userId date now : Int) (s : NlpSummary)
    (hstale : dbold.daily_summaries.any
      (fun r => r.user_id == userId && r.summary_date == date) = false)
    (hw : entriesWindow db userId (now - 7 * 24) now ≠ [])
    (hs : nlp (entriesWindow db userId (now - 7 * 24) now) = some s)
    (hconflict : db.daily_summaries.any
      (fun r => r.user_id == userId && r.summary_date == date) = true) :
    generateDailySummaryStaleCheck nlp dbold db userId date now = db := by
  have hne := isEmpty_eq_false_of_ne_nil _ hw
  simp only [generateDailySummaryStaleCheck, hstale, Bool.false_eq_true,
    if_false, hne, hs, insertSummary]
  simp [hconflict]

theorem quoteMissPath_conflict (nlp : List Entry → Option NlpQuote) (db : DB)
    (userId now : Int) (q : NlpQuote)
    (hq : generateDailyQuote nlp db userId now = some q)
    (hqq : q.quote ≠ "")
    (hconflict : db.daily_quotes.any
      (fun r => r.user_id == userId && r.quote_date == dateOf now) = true) :
    quoteMissPath nlp db userId now =
      ⟨.err 500 "Failed to fetch daily quote", db, 1⟩ := by
  have hne : (entriesSince db userId (now - 7 * 24)).isEmpty = false := by
    by_contra h
    rw [Bool.not_eq_false] at h
    rw [generateDailyQuote] at hq
    simp only [h, if_true] at hq
    exact Option.noConfusion hq
  have hbeq : (q.quote == "") = false := by simpa using hqq
  simp only [quoteMissPath, hq, hne, hbeq, Bool.false_eq_true, if_false,
    insertQuote]
  simp [hconflict]

/-- C4 amended: when a daily_quotes insert fails with the (owner, date)
unique-violation, the losing request receives a 500 error response (the
conflict is not resolved by re-reading), the store keeping exactly the
winner's single row; only for daily_summaries is the violation swallowed
inside the generation routine, with the losing request re-reading and
returning the winning row and no error propagated. -/
theorem uniqueViolation_amended
    (nlpQ : List Entry → Option NlpQuote)
    (nlpS : List Entry → Option NlpSummary)
    (db : DB) (userId now : Int) (q : NlpQuote) (s : NlpSummary)
    (hmiss : quotesFor db userId (dateOf now) = [])
    (hq : generateDailyQuote nlpQ db userId now = some q)
    (hqq : q.quote ≠ "")
    (hsmiss : summariesFor db userId (dateOf now) = [])
    (hw : entriesWindow db userId (now - 7 * 24) now ≠ [])
    (hs : nlpS (entriesWindow db userId (now - 7 * 24) now) = some s) :
    ((quoteRace nlpQ db userId now).2.resp =
        .err 500 "Failed to fetch daily quote" ∧
     (quoteRace nlpQ db userId now).2.db = (quoteRace nlpQ db userId now).1.db ∧
     (quotesFor (quoteRace nlpQ db userId now).2.db userId (dateOf now)).length = 1) ∧
    (∃ rA : SummaryRow,
      summariesFor (generateDailySummaryForUser nlpS db userId (dateOf now) now)
          userId (dateOf now) = [rA] ∧
      summaryRaceLoser nlpS db userId now =
        (.ok 200 (summaryPayload rA),
         generateDailySummaryForUser nlpS db userId (dateOf now) now)) := by
  have hA := quoteMissPath_success nlpQ db userId now q hmiss hq hqq
  have hmissfil : db.daily_quotes.filter
      (fun r => r.user_id == userId && r.quote_date == dateOf now) = [] := hmiss
  have hpq : (fun r : QuoteRow => r.user_id == userId && r.quote_date == dateOf now)
      { user_id := userId, title := q.title, quote := q.quote,
        author := q.author, citation := q.citation,
        explanation := q.explanation, quote_date := dateOf now } = true := by
    simp
  have hrow : quotesFor
      { db with daily_quotes := db.daily_quotes ++
          [{ user_id := userId, title := q.title, quote := q.quote,
             author := q.author, citation := q.citation,
             explanation := q.explanation, quote_date := dateOf now }] }
      userId (dateOf now) =
      [{ user_id := userId, title := q.title, quote := q.quote,
         author := q.author, citation := q.citation,
         explanation := q.explanation, quote_date := dateOf now }] :=
    filter_append_nil_singleton _ _ _ hmissfil hpq
  constructor
  · have hq2 : generateDailyQuote nlpQ
        { db with daily_quotes := db.daily_quotes ++
            [{ user_id := userId, title := q.title, quote := q.quote,
               author := q.author, citation := q.citation,
               explanation := q.explanation, quote_date := dateOf now }] }
        userId now = some q := hq
    have hconf : (({ db with daily_quotes := db.daily_quotes ++
        [{ user_id := userId, title := q.title, quote := q.quote,
           author := q.author, citation := q.citation,
           explanation := q.explanation, quote_date := dateOf now }] } : DB)).daily_quotes.any
        (fun r => r.user_id == userId && r.quote_date == dateOf now) = true :=
      any_append_singleton _ _ _ hpq
    have hB := quoteMissPath_conflict nlpQ
      { db with daily_quotes := db.daily_quotes ++
          [{ user_id := userId, title := q.title, quote := q.quote,
             author := q.author, citation := q.citation,
             explanation := q.explanation, quote_date := dateOf now }] }
      userId now q hq2 hqq hconf
    have hrace : quoteRace nlpQ db userId now =
        (quoteMissPath nlpQ db userId now,
         quoteMissPath nlpQ (quoteMissPath nlpQ db userId now).db userId now) := rfl
    rw [hrace, hA]
    simp only [hB]
    exact ⟨trivial, trivial, by rw [hrow]; rfl⟩
  · have hgen := generateDailySummary_inserts nlpS db userId (dateOf now) now s
      hsmiss hw hs
    have hsfil : db.daily_summaries.filter
        (fun r => r.user_id == userId && r.summary_date == dateOf now) = [] := hsmiss
    have hps : (fun r : SummaryRow => r.user_id == userId && r.summary_date == dateOf now)
        { user_id := userId, summary := s.summary, key_themes := s.key_themes,
          emotional_trends := s.emotional_trends,
          entry_count := (entriesWindow db userId (now - 7 * 24) now).length,
          analysis_period_start := dateOf (now - 7 * 24),
          analysis_period_end := dateOf (now - 24),
          summary_date := dateOf now } = true := by
      simp
    have hsummA : summariesFor
        { db with daily_summaries := db.daily_summaries ++
          [{ user_id := userId, summary := s.summary, key_themes := s.key_themes,
             emotional_trends := s.emotional_trends,
             entry_count := (entriesWindow db userId (now - 7 * 24) now).length,
             analysis_period_start := dateOf (now - 7 * 24),
             analysis_period_end := dateOf (now - 24),
             summary_date := dateOf now }] }
        userId (dateOf now) =
        [{ user_id := userId, summary := s.summary, key_themes := s.key_themes,
           emotional_trends := s.emotional_trends,
           entry_count := (entriesWindow db userId (now - 7 * 24) now).length,
           analysis_period_start := dateOf (now - 7 * 24),
           analysis_period_end := dateOf (now - 24),
           summary_date := dateOf now }] :=
      filter_append_nil_singleton _ _ _ hsfil hps
    have hstale2 := generateDailySummaryStaleCheck_conflict nlpS db
      { db with daily_summaries := db.daily_summaries ++
          [{ user_id := userId, summary := s.summary, key_themes := s.key_themes,
             emotional_trends := s.emotional_trends,
             entry_count := (entriesWindow db userId (now - 7 * 24) now).length,
             analysis_period_start := dateOf (now - 7 * 24),
             analysis_period_end := dateOf (now - 24),
             summary_date := dateOf now }] }
      userId (dateOf now) now s
      (any_eq_false_of_filter_eq_nil _ _ hsfil) hw hs
      (any_append_singleton _ _ _ hps)
    refine ⟨_, by rw [hgen]; exact hsummA, ?_⟩
    rw [summaryRaceLoser, hgen, hstale2, hsummA]

/-- C4 amended witness: user 1, day 100, fresh entry, working NLP quote and
summary services; the quote-race loser gets the 500 and the summary-race
loser gets the winner's row. -/
theorem uniqueViolation_amended_witness :
    quotesFor exDb1 1 (dateOf exNow) = [] ∧
    summariesFor exDb1 1 (dateOf exNow) = [] ∧
    entriesWindow exDb1 1 (exNow - 7 * 24) exNow ≠ [] ∧
    (((quoteRace exNlpQ exDb1 1 exNow).2.resp =
        .err 500 "Failed to fetch daily quote" ∧
      (quoteRace exNlpQ exDb1 1 exNow).2.db = (quoteRace exNlpQ exDb1 1 exNow).1.db ∧
      (quotesFor (quoteRace exNlpQ exDb1 1 exNow).2.db 1 (dateOf exNow)).length = 1) ∧
     (∃ rA : SummaryRow,
       summariesFor (generateDailySummaryForUser exNlpS exDb1 1 (dateOf exNow) exNow)
           1 (dateOf exNow) = [rA] ∧
       summaryRaceLoser exNlpS exDb1 1 exNow =
         (.ok 200 (summaryPayload rA),
          generateDailySummaryForUser exNlpS exDb1 1 (dateOf exNow) exNow))) :=
  ⟨by decide, by decide, by decide,
   uniqueViolation_amended exNlpQ exNlpS exDb1 1 exNow
     { title := "T", quote := "Q", author := "A", citation := "C",
       explanation := "E" }
     { summary := "S", key_themes := "[\"calm\"]", emotional_trends := "\x7b\x7d" }
     (by decide) (by decide) (by decide) (by decide) (by decide) (by decide)⟩

/-
C6 — generateDailySummaryForUser: one row persisted with the window's
metadata, and a no-op when a row already exists.
-/

/-- C6: with no existing (owner, date) summary row, a non-empty trailing
7-day window and a successful NLP summarizer call,
generateDailySummaryForUser persists exactly the one row whose entry_count
is the window size, whose analysis period runs from the calendar date 7 days
before now to yesterday, and whose summary_date is the given date; and on
any database already holding an (owner, date) row the call writes nothing.
-/
theorem generateDailySummaryForUser_spec
    (nlp : List Entry → Option NlpSummary) (db db2 : DB)
    (userId date now : Int) (s : NlpSummary)
    (hnone : summariesFor db userId date = [])
    (hw : entriesWindow db userId (now - 7 * 24) now ≠ [])
    (hs : nlp (entriesWindow db userId (now - 7 * 24) now) = some s)
    (hex : summariesFor db2 userId date ≠ []) :
    generateDailySummaryForUser nlp db userId date now =
      { db with daily_summaries := db.daily_summaries ++
        [{ user_id := userId, summary := s.summary, key_themes := s.key_themes,
           emotional_trends := s.emotional_trends,
           entry_count := (entriesWindow db userId (now - 7 * 24) now).length,
           analysis_period_start := dateOf (now - 7 * 24),
           analysis_period_end := dateOf (now - 24),
           summary_date := date }] } ∧
    dateOf (now - 7 * 24) = dateOf now - 7 ∧
    dateOf (now - 24) = dateOf now - 1 ∧
    generateDailySummaryForUser nlp db2 userId date now = db2 := by
  refine ⟨generateDailySummary_inserts nlp db userId date now s hnone hw hs,
    ?_, ?_, ?_⟩
  · rw [dateOf_eq_div, dateOf_eq_div]
    omega
  · rw [dateOf_eq_div, dateOf_eq_div]
    omega
  · have hany : db2.daily_summaries.any
        (fun r => r.user_id == userId && r.summary_date == date) = true :=
      any_eq_true_of_filter_ne_nil _ _ hex
    simp only [generateDailySummaryForUser, hany, if_true]

/-- C6 witness: user 1 on day 100, fresh database for the insert conjunct
and a database with an existing day-100 summary for the no-op conjunct. -/
theorem generateDailySummaryForUser_spec_witness :
    summariesFor exDb1 1 100 = [] ∧
    entriesWindow exDb1 1 (exNow - 7 * 24) exNow ≠ [] ∧
    summariesFor exDbSum100 1 100 ≠ [] ∧
    (generateDailySummaryForUser exNlpS exDb1 1 100 exNow =
      { exDb1 with daily_summaries := exDb1.daily_summaries ++
        [{ user_id := 1, summary := "S", key_themes := "[\"calm\"]",
           emotional_trends := "\x7b\x7d",
           entry_count := (entriesWindow exDb1 1 (exNow - 7 * 24) exNow).length,
           analysis_period_start := dateOf (exNow - 7 * 24),
           analysis_period_end := dateOf (exNow - 24),
           summary_date := 100 }] } ∧
     dateOf (exNow - 7 * 24) = dateOf exNow - 7 ∧
     dateOf (exNow - 24) = dateOf exNow - 1 ∧
     generateDailySummaryForUser exNlpS exDbSum100 1 100 exNow = exDbSum100) :=
  ⟨by decide, by decide, by decide,
   generateDailySummaryForUser_spec exNlpS exDb1 exDbSum100 1 100 exNow
     { summary := "S", key_themes := "[\"calm\"]", emotional_trends := "\x7b\x7d" }
     (by decide) (by decide) (by decide) (by decide)⟩

/-
C3 — summary endpoint: stale most-recent summary as fallback.
-/

/-- C3: when the most recent summary predates today and either the trailing
7-day window holds no entries or the row generated for today cannot be found
afterwards, GET /insights/summary answers the stale most-recent summary
unchanged with success status, never an error. -/
theorem getSummary_stale_fallback (nlp : List Entry → Option NlpSummary)
    (db : DB) (uid : String) (userId now : Int) (s : SummaryRow)
    (hu : selectUser db uid = some userId)
    (hr : mostRecentSummary db userId = some s)
    (hd : s.summary_date ≠ dateOf now)
    (hfail : entriesSince db userId (now - 7 * 24) = [] ∨
             summariesFor (generateDailySummaryForUser nlp db userId (dateOf now) now)
               userId (dateOf now) = []) :
    (getSummary nlp db uid now).1 = .ok 200 (summaryPayload s) := by
  have hbeq : (s.summary_date == dateOf now) = false := by simpa using hd
  rcases hfail with h | h
  · simp only [getSummary, hu, hr, hbeq, Bool.false_eq_true, if_false, h,
      List.isEmpty_nil, if_true]
  · cases he : (entriesSince db userId (now - 7 * 24)).isEmpty
    · simp only [getSummary, hu, hr, hbeq, Bool.false_eq_true, if_false, he, h]
    · simp only [getSummary, hu, hr, hbeq, Bool.false_eq_true, if_false, he,
        if_true]

/-- C3 witness: user 1 holds only yesterday's summary (day 99) and no
entries; on day 100 the endpoint answers that stale summary with success. -/
theorem getSummary_stale_fallback_witness :
    selectUser exDbStale "u1" = some 1 ∧
    mostRecentSummary exDbStale 1 = some exSummary99 ∧
    exSummary99.summary_date ≠ dateOf exNow ∧
    entriesSince exDbStale 1 (exNow - 7 * 24) = [] ∧
    (getSummary exNlpS exDbStale "u1" exNow).1 =
      .ok 200 (summaryPayload exSummary99) :=
  ⟨by decide, by decide, by decide, by decide,
   getSummary_stale_fallback exNlpS exDbStale "u1" 1 exNow exSummary99
     (by decide) (by decide) (by decide) (.inl (by decide))⟩

/-
C7 — classifier failure during POST /journals.
-/

/-- C7 counterexample: with a classifier whose call throws, POST /journals
answers a 500 error and inserts nothing — the entry is not saved with null
emotions and the request does not succeed with created status. -/
theorem classifierFailure_counterexample :
    postJournal exClsErr exDb1 "u1" "My day" "I feel sad" 9 exNow =
      (.err 500 "Failed to create journal entry", exDb1) := by
  decide

/-- C7 amended: a classifier call that completes with a null result degrades
to the entry being saved with null emotions and a 201 created response, but
a classifier call that throws aborts the request with a 500 error and no
entry saved. -/
theorem classifierFailure_amended (cls : Classifier) (db : DB) (uid : String)
    (userId : Int) (title content : String) (nextId now : Int)
    (ht : title ≠ "") (hc : content ≠ "")
    (hu : selectUser db uid = some userId) :
    (cls (getEmotionRequestText content) = .ok none →
      postJournal cls db uid title content nextId now =
        (.ok 201 (entryPayloadPost
            { journal_id := nextId, user_id := userId, title := title,
              content := content, emotions := none, created_at := now,
              favourite := false }),
         { db with journal_entries := db.journal_entries ++
            [{ journal_id := nextId, user_id := userId, title := title,
               content := content, emotions := none, created_at := now,
               favourite := false }] })) ∧
    (cls (getEmotionRequestText content) = .error () →
      postJournal cls db uid title content nextId now =
        (.err 500 "Failed to create journal entry", db)) := by
  have hbt : (title == "") = false := by simpa using ht
  have hbc : (content == "") = false := by simpa using hc
  constructor
  · intro hcl
    simp only [postJournal, hbt, hbc, Bool.or_self, Bool.false_eq_true,
      if_false, hu, getEmotion, hcl]
  · intro hcl
    simp only [postJournal, hbt, hbc, Bool.or_self, Bool.false_eq_true,
      if_false, hu, getEmotion, hcl]

/-- C7 amended witness: user 1, the null-answering classifier saves the
entry with null emotions and 201; the throwing classifier yields the 500
with nothing saved. -/
theorem classifierFailure_amended_witness :
    (postJournal exClsNull exDb1 "u1" "My day" "words" 9 exNow =
      (.ok 201 (entryPayloadPost
          { journal_id := 9, user_id := 1, title := "My day",
            content := "words", emotions := none, created_at := exNow,
            favourite := false }),
       { exDb1 with journal_entries := exDb1.journal_entries ++
          [{ journal_id := 9, user_id := 1, title := "My day",
             content := "words", emotions := none, created_at := exNow,
             favourite := false }] })) ∧
    (postJournal exClsErr exDb1 "u1" "My day" "words" 9 exNow =
      (.err 500 "Failed to create journal entry", exDb1)) :=
  ⟨(classifierFailure_amended exClsNull exDb1 "u1" 1 "My day" "words" 9 exNow
      (by decide) (by decide) (by decide)).1 (by decide),
   (classifierFailure_amended exClsErr exDb1 "u1" 1 "My day" "words" 9 exNow
      (by decide) (by decide) (by decide)).2 (by decide)⟩

/-
C8 — the classifier is not invoked with the entry's content.
-/

/-- C8: getEmotion posts the fixed string to the classifier no matter the
entry content, so both creation and content edit store the classifier's
labels for that fixed string rather than for the content: with a classifier
labelling the fixed text joy and the actual content sadness, the stored
entry carries joy. -/
theorem getEmotion_fixed_text_bug :
    getEmotionRequestText "I feel sad and hopeless" = "I am happy today!" ∧
    exClsDistinguish "I feel sad and hopeless" =
      .ok (some [{ emotion := "sadness", confidence := 1 }]) ∧
    (postJournal exClsDistinguish exDb1 "u1" "Bad day" "I feel sad and hopeless"
        9 exNow).2.journal_entries =
      exDb1.journal_entries ++
        [{ journal_id := 9, user_id := 1, title := "Bad day",
           content := "I feel sad and hopeless",
           emotions := some [{ emotion := "joy", confidence := 1 }],
           created_at := exNow, favourite := false }] ∧
    (putJournal exClsDistinguish exDb10 "u1" 1 "Edited" "I feel sad and hopeless"
        exNow).2.journal_entries =
      [{ journal_id := 1, user_id := 1, title := "Edited",
         content := "I feel sad and hopeless",
         emotions := some [{ emotion := "joy", confidence := 1 }],
         created_at := 100 * 24, favourite := false },
       { journal_id := 2, user_id := 2, title := "theirs", content := "th",
         emotions := none, created_at := 100 * 24, favourite := false }] := by
  decide

/-
C2 — emotionTrends bucketing.
-/

/-- C2 counterexample: the entry created yesterday at noon lies inside the
30-day retrieval window yet satisfies no bucket's join condition, so all
seven buckets of getEmotionTrends report zeros — the buckets do not
partition the trailing 30 days (there is a gap across yesterday's daytime).
-/
theorem emotionTrends_gap_counterexample :
    ((100 : Int) - 30) * 24 ≤ exEntryYesterdayNoon.created_at ∧
    (∀ k ∈ bucketOffsets, inBucket 100 k exEntryYesterdayNoon.created_at = false) ∧
    getEmotionTrends exDbGap "u1" 100 =
      .ok 200 [⟨"1", 0, 0, 0⟩, ⟨"5", 0, 0, 0⟩, ⟨"10", 0, 0, 0⟩,
               ⟨"15", 0, 0, 0⟩, ⟨"20", 0, 0, 0⟩, ⟨"25", 0, 0, 0⟩,
               ⟨"30", 0, 0, 0⟩] := by
  decide

/-- C2 amended: the seven buckets are pairwise disjoint but leave a gap in
the trailing 30 days: bucket k, for k in {5, ..., 30}, covers the half-open
interval (midnight − k days, midnight − k_prev days] anchored at today's
midnight, while bucket 1 covers exactly the entries whose calendar date is
today, so instants of yesterday strictly after its midnight fall in no
bucket; entries at offsets {0, 3, 7, 12} days before now land in buckets
{1, 5, 10, 15}, a bucket with no matching occurrences reports zero counts,
and all seven buckets are always returned in offset order. -/
theorem emotionTrends_buckets_amended (cd t : Int) :
    (∀ k ∈ bucketOffsets, ∀ j ∈ bucketOffsets,
      inBucket cd k t = true → inBucket cd j t = true → k = j) ∧
    (inBucket cd 1 t = true ↔ cd * 24 ≤ t ∧ t < cd * 24 + 24) ∧
    (inBucket cd 5 t = true ↔ (cd - 5) * 24 < t ∧ t ≤ (cd - 1) * 24) ∧
    (inBucket cd 10 t = true ↔ (cd - 10) * 24 < t ∧ t ≤ (cd - 5) * 24) ∧
    (inBucket cd 15 t = true ↔ (cd - 15) * 24 < t ∧ t ≤ (cd - 10) * 24) ∧
    (inBucket cd 20 t = true ↔ (cd - 20) * 24 < t ∧ t ≤ (cd - 15) * 24) ∧
    (inBucket cd 25 t = true ↔ (cd - 25) * 24 < t ∧ t ≤ (cd - 20) * 24) ∧
    (inBucket cd 30 t = true ↔ (cd - 30) * 24 < t ∧ t ≤ (cd - 25) * 24) ∧
    ((cd - 1) * 24 < t → t < cd * 24 →
      ∀ k ∈ bucketOffsets, inBucket cd k t = false) ∧
    (dateOf t = cd →
      inBucket cd 1 t = true ∧ inBucket cd 5 (t - 3 * 24) = true ∧
      inBucket cd 10 (t - 7 * 24) = true ∧ inBucket cd 15 (t - 12 * 24) = true) ∧
    (∀ emos : List (Int × String), ∀ k : Nat,
      (emos.filter (fun p => inBucket cd k p.1)).length = 0 →
      trendRowFor emos cd k = ⟨toString k, 0, 0, 0⟩) ∧
    (∀ (db : DB) (uid : String) (userId : Int),
      selectUser db uid = some userId →
      getEmotionTrends db uid cd =
        .ok 200 (bucketOffsets.map
          (trendRowFor (unnestedEmotions db userId cd) cd)) ∧
      (bucketOffsets.map (trendRowFor (unnestedEmotions db userId cd) cd)).map
        TrendRow.day = ["1", "5", "10", "15", "20", "25", "30"]) := by
  refine ⟨?_, ?_, ?_, ?_, ?_, ?_, ?_, ?_, ?_, ?_, ?_, ?_⟩
  · intro k hk j hj h1 h2
    simp only [bucketOffsets, List.mem_cons, List.not_mem_nil, or_false] at hk hj
    rcases hk with rfl | rfl | rfl | rfl | rfl | rfl | rfl <;>
      rcases hj with rfl | rfl | rfl | rfl | rfl | rfl | rfl <;>
      simp_all [inBucket, beq_iff_eq, dateOf_eq_div] <;> omega
  · simp [inBucket, beq_iff_eq, dateOf_eq_div]
    omega
  · simp [inBucket]
  · simp [inBucket]
  · simp [inBucket]
  · simp [inBucket]
  · simp [inBucket]
  · simp [inBucket]
  · intro h1 h2 k hk
    simp only [bucketOffsets, List.mem_cons, List.not_mem_nil, or_false] at hk
    rcases hk with rfl | rfl | rfl | rfl | rfl | rfl | rfl <;>
      simp [inBucket, beq_iff_eq, dateOf_eq_div] <;> omega
  · intro hd
    rw [dateOf_eq_div] at hd
    refine ⟨?_, ?_, ?_, ?_⟩ <;> simp [inBucket, beq_iff_eq, dateOf_eq_div] <;>
      omega
  · intro emos k h
    rw [List.length_eq_zero] at h
    simp [trendRowFor, h]
  · intro db uid userId hu
    constructor
    · simp [getEmotionTrends, hu]
    · rfl

/-- C2 amended witness: date 100 with an instant of that date (day 100,
10:00): the offset entries land in buckets 1, 5, 10 and 15. -/
theorem emotionTrends_buckets_amended_witness :
    dateOf exNow = 100 ∧
    (inBucket 100 1 exNow = true ∧ inBucket 100 5 (exNow - 3 * 24) = true ∧
     inBucket 100 10 (exNow - 7 * 24) = true ∧
     inBucket 100 15 (exNow - 12 * 24) = true) :=
  ⟨by decide,
   (emotionTrends_buckets_amended 100 exNow).2.2.2.2.2.2.2.2.2.1 (by decide)⟩

/-
C9 — topEmotions ranking.
-/

theorem groupedCounts_map_fst (labels : List String) :
    (groupedCounts labels).map Prod.fst = labels.dedup := by
  rw [groupedCounts, List.map_map]
  exact List.map_id'' (fun _ => rfl) _

theorem mem_groupedCounts {labels : List String} {p : String × Nat}
    (hp : p ∈ groupedCounts labels) :
    p.1 ∈ labels.dedup ∧ p.2 = labels.count p.1 := by
  rw [groupedCounts, List.mem_map] at hp
  rcases hp with ⟨e, he, rfl⟩
  exact ⟨he, rfl⟩

/-- C9: getTopEmotions counts every (entry, emotion) occurrence of the
trailing 30-day window by label, answers the rows ordered by non-increasing
count and truncated to at most 5 without padding, and answers a sentinel
message (success, not an empty list) on an empty window. -/
theorem getTopEmotions_correct (db : DB) (uid : String) (userId cd : Int)
    (hu : selectUser db uid = some userId) : TopEmotionsOk db uid userId cd := by
  rw [TopEmotionsOk]
  set labels := (unnestedEmotions db userId cd).map (fun p => p.2) with hlabels
  have hperm : List.Perm (List.insertionSort countGE (groupedCounts labels))
      (groupedCounts labels) := List.perm_insertionSort countGE _
  have hsorted : List.Pairwise countGE
      (List.insertionSort countGE (groupedCounts labels)) :=
    List.sorted_insertionSort countGE _
  have hget : getTopEmotions db uid cd =
      (if ((List.insertionSort countGE (groupedCounts labels)).take 5).isEmpty then
        .message "No journal entries found in the last 30 days"
      else
        .top ((List.insertionSort countGE (groupedCounts labels)).take 5)) := by
    simp only [getTopEmotions, hu]
  constructor
  · intro h
    have hg : groupedCounts labels = [] := by
      rw [groupedCounts, h]
      rfl
    have hs : List.insertionSort countGE (groupedCounts labels) = [] := by
      rw [hg]
      rfl
    rw [hget, hs]
    rfl
  · intro h
    have hg : groupedCounts labels ≠ [] := by
      rw [groupedCounts]
      intro hc
      rw [List.map_eq_nil_iff] at hc
      exact h ((List.dedup_eq_nil _).mp hc)
    have hs : List.insertionSort countGE (groupedCounts labels) ≠ [] := by
      intro hc
      rw [hc] at hperm
      exact hg (List.Perm.eq_nil hperm.symm)
    have htake : ((List.insertionSort countGE (groupedCounts labels)).take 5).isEmpty
        = false := by
      cases hcons : List.insertionSort countGE (groupedCounts labels) with
      | nil => exact absurd hcons hs
      | cons a l => rfl
    refine ⟨(List.insertionSort countGE (groupedCounts labels)).take 5,
      ?_, ?_, ?_, ?_, ?_, ?_⟩
    · rw [hget, htake]
      rfl
    · rw [List.length_take, List.Perm.length_eq hperm, groupedCounts,
        List.length_map]
    · intro p hp
      have hp2 : p ∈ groupedCounts labels :=
        (List.Perm.mem_iff hperm).mp (List.mem_of_mem_take hp)
      exact mem_groupedCounts hp2
    · exact List.Pairwise.sublist (List.take_sublist 5 _) hsorted
    · have hnodupS : ((List.insertionSort countGE (groupedCounts labels)).map
          Prod.fst).Nodup := by
        have hmapperm : List.Perm
            ((List.insertionSort countGE (groupedCounts labels)).map Prod.fst)
            ((groupedCounts labels).map Prod.fst) :=
          List.Perm.map _ hperm
        rw [groupedCounts_map_fst] at hmapperm
        exact (List.Perm.nodup_iff hmapperm).mpr (List.nodup_dedup labels)
      exact List.Nodup.sublist
        (List.Sublist.map Prod.fst (List.take_sublist 5 _)) hnodupS
    · intro e he
      have hmem : (e, labels.count e) ∈
          List.insertionSort countGE (groupedCounts labels) := by
        rw [List.Perm.mem_iff hperm, groupedCounts, List.mem_map]
        exact ⟨e, he, rfl⟩
      rw [← List.take_append_drop 5
        (List.insertionSort countGE (groupedCounts labels)), List.mem_append]
        at hmem
      rcases hmem with hmem | hmem
      · exact Or.inl hmem
      · refine Or.inr (fun p hp => ?_)
        have hpair := List.pairwise_append.mp
          ((List.take_append_drop 5
            (List.insertionSort countGE (groupedCounts labels))).symm ▸ hsorted)
        exact hpair.2.2 p hp (e, labels.count e) hmem

/-- C9 witness: the spec's test vector joy 5, fear 3, calm 3, pride 1 —
exactly four rows, joy first, non-increasing counts. -/
theorem getTopEmotions_correct_witness :
    selectUser exDb9 "u1" = some 1 ∧
    getTopEmotions exDb9 "u1" 100 =
      .top [("joy", 5), ("fear", 3), ("calm", 3), ("pride", 1)] ∧
    TopEmotionsOk exDb9 "u1" 1 100 :=
  ⟨by decide, by decide, getTopEmotions_correct exDb9 "u1" 1 100 (by decide)⟩

/-
C10 — owner isolation of the journal endpoints.
-/

theorem map_guard_filter_other (l : List Entry) (jid userId : Int)
    (f : Entry → Entry) (hf : ∀ e, (f e).user_id = e.user_id) :
    (l.map (fun e =>
        if e.journal_id == jid && e.user_id == userId then f e else e)).filter
      (fun e => !(e.user_id == userId)) =
    l.filter (fun e => !(e.user_id == userId)) := by
  induction l with
  | nil => rfl
  | cons a l ih =>
      rw [List.map_cons, List.filter_cons, List.filter_cons]
      by_cases hg : (a.journal_id == jid && a.user_id == userId) = true
      · have hu2 : (a.user_id == userId) = true := by
          have h2 := hg
          rw [Bool.and_eq_true] at h2
          exact h2.2
        have hfu : ((f a).user_id == userId) = true := by
          rw [beq_iff_eq, hf]
          exact beq_iff_eq.mp hu2
        rw [if_pos hg]
        simp only [hfu, hu2, Bool.not_true, Bool.false_eq_true, if_false, ih]
      · rw [if_neg hg]
        by_cases hu2 : (a.user_id == userId) = true
        · simp only [hu2, Bool.not_true, Bool.false_eq_true, if_false, ih]
        · have hu3 : (a.user_id == userId) = false := by simpa using hu2
          simp only [hu3, Bool.not_false, if_true, ih]

theorem filter_delete_other (l : List Entry) (jid userId : Int) :
    (l.filter (fun e =>
        !(e.journal_id == jid && e.user_id == userId))).filter
      (fun e => !(e.user_id == userId)) =
    l.filter (fun e => !(e.user_id == userId)) := by
  induction l with
  | nil => rfl
  | cons a l ih =>
      rw [List.filter_cons, List.filter_cons]
      by_cases hu2 : (a.user_id == userId) = true
      · by_cases hj : (a.journal_id == jid) = true
        · simp only [hj, hu2, Bool.and_true, Bool.not_true, Bool.false_eq_true,
            if_false, ih]
        · have hj2 : (a.journal_id == jid) = false := by simpa using hj
          simp only [hj2, hu2, Bool.false_and, Bool.not_false, if_true,
            List.filter_cons, Bool.not_true, Bool.false_eq_true, if_false, ih]
      · have hu3 : (a.user_id == userId) = false := by simpa using hu2
        simp only [hu3, Bool.and_false, Bool.not_false, if_true,
          List.filter_cons, ih]

theorem guard_filter_empty (l : List Entry) (jid userId : Int)
    (hno : ∀ e ∈ l, e.journal_id = jid → e.user_id ≠ userId) :
    l.filter (fun e => e.journal_id == jid && e.user_id == userId) = [] := by
  rw [List.filter_eq_nil_iff]
  intro e he hp
  rw [Bool.and_eq_true] at hp
  exact hno e he (beq_iff_eq.mp hp.1) (beq_iff_eq.mp hp.2)

theorem map_guard_id (l : List Entry) (jid userId : Int) (f : Entry → Entry)
    (hno : l.filter (fun e => e.journal_id == jid && e.user_id == userId) = []) :
    l.map (fun e =>
      if e.journal_id == jid && e.user_id == userId then f e else e) = l := by
  induction l with
  | nil => rfl
  | cons a l ih =>
      rw [List.filter_cons] at hno
      by_cases hg : (a.journal_id == jid && a.user_id == userId) = true
      · rw [if_pos hg] at hno
        exact absurd hno (List.cons_ne_nil _ _)
      · rw [if_neg hg] at hno
        rw [List.map_cons, if_neg hg, ih hno]

/-- C10: the journal update, favourite-toggle and delete endpoints never
change rows of any user other than the one resolved from the bearer
credential (the other-owner rows of journal_entries are preserved exactly,
for every input), and a request naming a journal_id that no row of the
resolved user carries — in particular one owned by a different user —
modifies nothing and is answered 404. -/
theorem journals_owner_isolation (cls : Classifier) (db : DB) (uid : String)
    (userId jid : Int) (title content : String) (fav : Bool) (now : Int)
    (hu : selectUser db uid = some userId) :
    ((putJournal cls db uid jid title content now).2.journal_entries.filter
        (fun e => !(e.user_id == userId)) =
      db.journal_entries.filter (fun e => !(e.user_id == userId))) ∧
    ((patchFavourite db uid jid fav).2.journal_entries.filter
        (fun e => !(e.user_id == userId)) =
      db.journal_entries.filter (fun e => !(e.user_id == userId))) ∧
    ((deleteJournal db uid jid).2.journal_entries.filter
        (fun e => !(e.user_id == userId)) =
      db.journal_entries.filter (fun e => !(e.user_id == userId))) ∧
    ((∀ e ∈ db.journal_entries, e.journal_id = jid → e.user_id ≠ userId) →
      title ≠ "" → content ≠ "" →
      putJournal cls db uid jid title content now =
        (.err 404 "Journal entry not found or access denied", db) ∧
      patchFavourite db uid jid fav =
        (.err 404 "Journal entry not found or access denied", db) ∧
      deleteJournal db uid jid =
        (.err 404 "Journal entry not found or access denied", db)) := by
  refine ⟨?_, ?_, ?_, ?_⟩
  · rw [putJournal]
    split
    · rfl
    · simp only [hu]
      split
      · rfl
      · cases hc : getEmotion cls content with
        | error e => rfl
        | ok data =>
            dsimp only
            cases hm : (updateEntryRows db jid userId
              (fun e =>
                { e with
                  title := title
                  content := content
                  emotions := data })).2 with
            | nil => exact map_guard_filter_other _ _ _ _ (fun _ => rfl)
            | cons a l => exact map_guard_filter_other _ _ _ _ (fun _ => rfl)
  · rw [patchFavourite]
    simp only [hu]
    cases hm : (updateEntryRows db jid userId (fun e => { e with favourite := fav })).2 with
    | nil => rfl
    | cons a l => exact map_guard_filter_other _ _ _ _ (fun _ => rfl)
  · rw [deleteJournal]
    simp only [hu]
    cases hm : db.journal_entries.filter
        (fun e => e.journal_id == jid && e.user_id == userId) with
    | nil => rfl
    | cons a l => exact filter_delete_other _ _ _
  · intro hno ht hc
    have hempty := guard_filter_empty db.journal_entries jid userId hno
    have hbt : (title == "") = false := by simpa using ht
    have hbc : (content == "") = false := by simpa using hc
    refine ⟨?_, ?_, ?_⟩
    · simp only [putJournal, hbt, hbc, Bool.or_self, Bool.false_eq_true,
        if_false, hu, hempty, List.isEmpty_nil, if_true]
    · rw [patchFavourite]
      simp only [hu]
      have hrows : (updateEntryRows db jid userId
          (fun e => { e with favourite := fav })).2 = [] := by
        show (db.journal_entries.map _).filter _ = []
        rw [map_guard_id _ _ _ _ hempty]
        exact hempty
      rw [hrows]
    · rw [deleteJournal]
      simp only [hu, hempty]

/-- C10 witness: user 1 operating on journal 2 (owned by user 2): all three
endpoints answer 404 and modify nothing, and user 2's rows are preserved by
every call. -/
theorem journals_owner_isolation_witness :
    selectUser exDb10 "u1" = some 1 ∧
    ((putJournal exClsNull exDb10 "u1" 2 "x" "y" exNow).2.journal_entries.filter
        (fun e => !(e.user_id == 1)) =
      exDb10.journal_entries.filter (fun e => !(e.user_id == 1))) ∧
    ((∀ e ∈ exDb10.journal_entries, e.journal_id = 2 → e.user_id ≠ 1) →
      putJournal exClsNull exDb10 "u1" 2 "x" "y" exNow =
        (.err 404 "Journal entry not found or access denied", exDb10) ∧
      patchFavourite exDb10 "u1" 2 true =
        (.err 404 "Journal entry not found or access denied", exDb10) ∧
      deleteJournal exDb10 "u1" 2 =
        (.err 404 "Journal entry not found or access denied", exDb10)) ∧
    (∀ e ∈ exDb10.journal_entries, e.journal_id = 2 → e.user_id ≠ 1) :=
  ⟨by decide,
   (journals_owner_isolation exClsNull exDb10 "u1" 1 2 "x" "y" true exNow
     (by decide)).1,
   fun h => (journals_owner_isolation exClsNull exDb10 "u1" 1 2 "x" "y" true exNow
     (by decide)).2.2.2 h (by decide) (by decide),
   by decide⟩

end Nilai
